import Mathlib

/-!
Shallow embedding of the Raspberry-Pi weather dashboard's rendering core
(`weather_display_pil.py`, `weather_dashboard.py`).

Python strings are embedded as `List Char`, Python floats as exact
rationals `ℚ` (every numeric fact proved below is evaluated only at
inputs where the float computation is exact, or concerns values that do
not depend on rounding), Python `int()` truncation as `pyInt`,
Python `//` floor division as `Int.fdiv`.
-/

namespace WeatherDash

/-- Python `int()` applied to a real number: truncation toward zero
(computed as truncating division of numerator by denominator). -/
def pyInt (q : ℚ) : ℤ := q.num.tdiv q.den

/-! ## `get_weather_icon` (weather_display_pil.py, lines 13–86) -/

/-- `get_weather_icon(icon_code, wind_speed)`: map an OpenWeatherMap icon
code plus wind speed to a local icon asset name. -/
def get_weather_icon (icon_code : List Char) (wind_speed : ℚ) : List Char :=
  if 20 ≤ wind_speed then "windy".toList
  else
    let is_night := icon_code.getLast? = some 'n'
    let base_code := icon_code.take 2
    if base_code = ['0', '1'] then
      if is_night then "clear_night".toList
      else if 10 ≤ wind_speed then "clear_windy".toList
      else "clear_day".toList
    else if base_code = ['0', '2'] then
      if is_night then "partly_cloudy_night".toList else "partly_cloudy_day".toList
    else if base_code = ['0', '3'] ∨ base_code = ['0', '4'] then
      if ¬ is_night ∧ 10 ≤ wind_speed then "cloudy_windy".toList else "cloudy".toList
    else if base_code = ['0', '9'] then
      if is_night then "drizzle_night".toList else "drizzle_day".toList
    else if base_code = ['1', '0'] then
      if is_night then "rain_night".toList else "rain_day".toList
    else if base_code = ['1', '1'] then "thunderstorm".toList
    else if base_code = ['1', '3'] then
      if is_night then "snow_night".toList else "snow_day".toList
    else if base_code = ['5', '0'] then "mist".toList
    else "cloudy".toList

/-! ## `load_icon` name resolution (weather_display_pil.py, lines 195–220)

Only the pure name-resolution part of `load_icon` is embedded: which
icon asset name the function settles on before touching the filesystem.
-/

def ui_icons : List (List Char) :=
  ["sunrise".toList, "sunset".toList, "wind".toList,
   "humidity".toList, "visibility".toList, "aqi".toList]

/-- The icon asset name `load_icon(icon_name, size, wind_speed, force_day)`
resolves to: UI icons pass through by name; weather icons optionally get
their trailing night marker replaced by `'d'` (when `force_day`), then go
through `get_weather_icon`. -/
def load_icon_name (icon_name : List Char) (wind_speed : ℚ) (force_day : Bool) : List Char :=
  if icon_name ∈ ui_icons then icon_name
  else
    let name :=
      if force_day ∧ icon_name.getLast? = some 'n'
      then icon_name.dropLast ++ ['d']
      else icon_name
    get_weather_icon name wind_speed

/-- An OpenWeatherMap condition code: two digits followed by a
day/night suffix (e.g. `01d`, `10n`). -/
def isConditionCode : List Char → Bool
  | [a, b, s] => a.isDigit && b.isDigit && (s = 'd' || s = 'n')
  | _ => false

/-! ## `bezier_curve` (weather_display_pil.py, lines 89–126) -/

/-- One coordinate of the Catmull-Rom basis evaluated at parameter `t`. -/
def catmullCoord (a0 a1 a2 a3 : ℤ) (t : ℚ) : ℚ :=
  (1 / 2) * (2 * a1 + (-a0 + a2) * t
    + (2 * a0 - 5 * a1 + 4 * a2 - a3) * t ^ 2
    + (-a0 + 3 * a1 - 3 * a2 + a3) * t ^ 3)

/-- One interpolated point `(int(x), int(y))` of the spline. -/
def catmullPoint (p0 p1 p2 p3 : ℤ × ℤ) (t : ℚ) : ℤ × ℤ :=
  (pyInt (catmullCoord p0.1 p1.1 p2.1 p3.1 t),
   pyInt (catmullCoord p0.2 p1.2 p2.2 p3.2 t))

/-- The `num_segments` points generated for input interval `i`
(the inner loop of `bezier_curve`), with the source's boundary handling
`p0 = points[max(0, i-1)]`, `p3 = points[min(len(points)-1, i+2)]`. -/
def bezierSegment (points : List (ℤ × ℤ)) (num_segments : ℕ) (i : ℕ) : List (ℤ × ℤ) :=
  let p0 := points.getD (i - 1) (0, 0)
  let p1 := points.getD i (0, 0)
  let p2 := points.getD (i + 1) (0, 0)
  let p3 := points.getD (min (points.length - 1) (i + 2)) (0, 0)
  (List.range num_segments).map fun (t_step : ℕ) =>
    catmullPoint p0 p1 p2 p3 ((t_step : ℚ) / (num_segments : ℚ))

/-- `bezier_curve(points, num_segments)`: Catmull-Rom smoothing; inputs with
fewer than 2 points are returned unchanged, and the last input point is
appended explicitly at the end. -/
def bezier_curve (points : List (ℤ × ℤ)) (num_segments : ℕ) : List (ℤ × ℤ) :=
  if points.length < 2 then points
  else ((List.range (points.length - 1)).map (bezierSegment points num_segments)).flatten
    ++ [points.getLastD (0, 0)]

/-! ## `draw_graph_section` point computation (weather_display_pil.py, lines 399–480) -/

def graph_x : ℤ := 85
def graph_width : ℤ := 590
def graph_height : ℤ := 80
def graph_y (y_start : ℤ) : ℤ := y_start + 12

/-- One entry of the `hourly_data` list handed to `draw_graph_section`. -/
structure HourPoint where
  time : List Char
  temp : ℚ
  rain_chance : ℚ
deriving DecidableEq

/-- `temp_range = temp_max - temp_min if temp_max != temp_min else 1`. -/
def temp_range (temp_min temp_max : ℚ) : ℚ :=
  if temp_max ≠ temp_min then temp_max - temp_min else 1

/-- The real-valued vertical position of a temperature sample before
Python's `int()` truncation:
`py = graph_y + graph_height - ((temp - temp_min) / temp_range) * graph_height`. -/
def temp_y_real (y_start : ℤ) (temp_min temp_max temp : ℚ) : ℚ :=
  (graph_y y_start : ℚ) + (graph_height : ℚ)
    - ((temp - temp_min) / temp_range temp_min temp_max) * (graph_height : ℚ)

/-- The pixel y of a temperature sample, `int(py)`. -/
def temp_point_y (y_start : ℤ) (temp_min temp_max temp : ℚ) : ℤ :=
  pyInt (temp_y_real y_start temp_min temp_max temp)

/-- The pixel y of a precipitation-probability sample:
`py = graph_y + graph_height - (rain_pct / 100) * graph_height`. -/
def rain_point_y (y_start : ℤ) (rain_pct : ℚ) : ℤ :=
  pyInt ((graph_y y_start : ℚ) + (graph_height : ℚ)
    - (rain_pct / 100) * (graph_height : ℚ))

/-- `step = graph_width / (len(temps) - 1) if len(temps) > 1 else graph_width`. -/
def graph_step (n : ℕ) : ℚ :=
  if 1 < n then (graph_width : ℚ) / ((n - 1 : ℕ) : ℚ) else (graph_width : ℚ)

/-- The `points` list of the temperature curve: for each `(i, temp)`,
`(int(graph_x + i * step), int(py))`. -/
def temp_points (y_start : ℤ) (temps : List ℚ) (temp_min temp_max : ℚ) : List (ℤ × ℤ) :=
  temps.enum.map fun p =>
    (pyInt ((graph_x : ℚ) + (p.1 : ℚ) * graph_step temps.length),
     temp_point_y y_start temp_min temp_max p.2)

/-- The temperature points computed by `draw_graph_section`, including its
early-return guard for fewer than 2 hourly points. -/
def draw_graph_temp_points (y_start : ℤ) (hourly : List HourPoint)
    (temp_min temp_max : ℚ) : List (ℤ × ℤ) :=
  if hourly.length < 2 then []
  else temp_points y_start (hourly.map HourPoint.temp) temp_min temp_max

/-! ## `make_icon_yellow` (weather_display_pil.py, lines 271–298) -/

/-- An RGBA pixel. -/
structure Pixel where
  r : ℤ
  g : ℤ
  b : ℤ
  a : ℤ
deriving DecidableEq

/-- The brightness measure the source computes per pixel:
`brightness = (r + g + b) / 3 / 255`. -/
def luminance (p : Pixel) : ℚ := ((p.r : ℚ) + (p.g : ℚ) + (p.b : ℚ)) / 3 / 255

/-- Per-pixel body of `make_icon_yellow`: non-transparent pixels are
replaced by the fixed yellow `(255, 220, 0)` scaled by the pixel's
original brightness, keeping alpha. -/
def make_icon_yellow_pixel (p : Pixel) : Pixel :=
  if 0 < p.a then
    let brightness := luminance p
    ⟨pyInt (255 * brightness), pyInt (220 * brightness), pyInt (0 * brightness), p.a⟩
  else p

/-- `make_icon_yellow` over the image's pixels (the raster flattened to a
list; the transform is independent per pixel). -/
def make_icon_yellow (img : List Pixel) : List Pixel :=
  img.map make_icon_yellow_pixel

/-! ## `draw_forecast` (weather_display_pil.py, lines 528–562) -/

/-- One daily-forecast dict. -/
structure DayRec where
  date : List Char
  day_name : List Char
  min_temp : ℤ
  max_temp : ℤ
  icon : List Char
deriving DecidableEq, Inhabited

/-- `card_width = available_width // cards_per_row` with
`available_width = self.width - 58*2 - 3*(cards_per_row - 1)`
(Python `//` is floor division, `Int.fdiv`). -/
def card_width (width : ℤ) (cards_per_row : ℤ) : ℤ :=
  let total_spacing : ℤ := 58 * 2
  let gap_spacing : ℤ := 3 * (cards_per_row - 1)
  let available_width : ℤ := width - total_spacing - gap_spacing
  available_width.fdiv cards_per_row

/-- The forecast entries actually rendered as cards (after the slice
`forecast_data[0:6]`), each with the first card's day name overridden to
`"Today"` on a copy. -/
def draw_forecast_cards (forecast_data : List DayRec) : List DayRec :=
  if forecast_data = [] then []
  else
    let daily_forecasts := forecast_data.take 6
    if daily_forecasts = [] then []
    else daily_forecasts.enum.map fun p =>
      if p.1 = 0 then { p.2 with day_name := "Today".toList } else p.2

/-! A heap model of the same loop, to state the frame property that
`draw_forecast` never mutates its input dicts. A store is a list of
`DayRec` cells; the forecast list holds addresses into the store;
`day.copy()` allocates a fresh cell at the end of the store and the
`'Today'` override writes only to that fresh cell. The returned address
list points at the per-card copies handed to `draw_forecast_card`. -/

def draw_forecast_loop : List DayRec → List ℕ → ℕ → List DayRec × List ℕ
  | store, [], _ => (store, [])
  | store, addr :: rest, i =>
    let day := store.getD addr default
    let day_copy := day
    let day_display := if i = 0 then { day_copy with day_name := "Today".toList } else day_copy
    let res := draw_forecast_loop (store ++ [day_display]) rest (i + 1)
    (res.1, store.length :: res.2)

/-- `draw_forecast` over the heap model: early return on an empty
forecast list, otherwise iterate over `forecast_data[0:6]`. -/
def draw_forecast_heap (store : List DayRec) (forecast_addrs : List ℕ) :
    List DayRec × List ℕ :=
  if forecast_addrs = [] then (store, [])
  else draw_forecast_loop store (forecast_addrs.take 6) 0

/-! ## `prepare_template_data` and `update_display`
(weather_display_pil.py, lines 630–728) -/

/-- One raw hourly forecast entry (`forecast['hourly']`); timestamps are
abstract (`ℤ`), formatted only through an external `strftime` function. -/
structure HourRec where
  time : ℤ
  temp : ℚ
  icon : List Char
  rain_chance : ℚ
deriving DecidableEq

/-- The fields of the `current` dict that the render model consumes. -/
structure CurrentRec where
  city : List Char
  country : List Char
  temperature : ℚ
  icon : List Char
  wind_speed : ℚ
  timestamp : ℤ
deriving DecidableEq

structure ForecastRec where
  hourly : List HourRec
  daily : List DayRec
deriving DecidableEq

/-- The record the fetcher hands to `update_display`; `current` may be
absent (the `weather_data.get('current')` check). -/
structure WeatherRecord where
  current : Option CurrentRec
  forecast : ForecastRec
  last_updated : ℤ
deriving DecidableEq

/-- The view model returned by `prepare_template_data`. -/
structure TemplateData where
  city : List Char
  country : List Char
  hourly_data : List HourPoint
  temp_min : ℚ
  temp_max : ℚ
  forecast : List DayRec
deriving DecidableEq

/-- Python `min` over a nonempty list (`min(temps)`). -/
def pyMin : List ℚ → ℚ
  | [] => 0
  | x :: xs => xs.foldl min x

/-- Python `max` over a nonempty list (`max(temps)`). -/
def pyMax : List ℚ → ℚ
  | [] => 0
  | x :: xs => xs.foldl max x

/-- `prepare_template_data(weather_data)`: `None` when the record is
missing or lacks `current`; otherwise build the view model, taking 8
hourly points and 7 daily entries. `fmt_time` stands for
`strftime('%I %p')` formatting of an abstract timestamp. -/
def prepare_template_data (fmt_time : ℤ → List Char)
    (weather_data : Option WeatherRecord) : Option TemplateData :=
  match weather_data with
  | none => none
  | some w =>
    match w.current with
    | none => none
    | some current =>
      let hourly_data : List HourPoint :=
        (w.forecast.hourly.take 8).enum.map fun p =>
          ⟨if p.1 = 0 then "Now".toList else fmt_time p.2.time,
           p.2.temp, p.2.rain_chance⟩
      let temps := if hourly_data ≠ [] then hourly_data.map HourPoint.temp
                   else [current.temperature]
      some ⟨current.city,
            if current.country = "US".toList then "PA".toList else current.country,
            hourly_data, pyMin temps, pyMax temps,
            w.forecast.daily.take 7⟩

/-- Outcome of one `update_display` call: either the early return that
leaves the previous display content untouched, or a full render driven
by a prepared view model. -/
inductive DisplayResult
  | noRender
  | rendered (data : TemplateData)
deriving DecidableEq

/-- `update_display(weather_data)`: early return (no drawing at all) when
the record is missing or lacks `current`, or when the view model cannot
be prepared; otherwise render from the view model. -/
def update_display (fmt_time : ℤ → List Char)
    (weather_data : Option WeatherRecord) : DisplayResult :=
  match weather_data with
  | none => .noRender
  | some w =>
    match w.current with
    | none => .noRender
    | some _ =>
      match prepare_template_data fmt_time weather_data with
      | none => .noRender
      | some data => .rendered data

/-! ## Concrete sample data (mirrors the shape of `test_display`'s inputs:
11 hourly points, 7 daily entries) -/

def sample_hour : HourRec := ⟨0, 50, "02d".toList, 5⟩

def sample_day : DayRec := ⟨"2025-10-10".toList, "Fri".toList, 46, 54, "02d".toList⟩

def sample_current : CurrentRec :=
  ⟨"Philadelphia".toList, "US".toList, 54, "02d".toList, 6, 0⟩

def sample_weather : WeatherRecord :=
  ⟨some sample_current, ⟨List.replicate 11 sample_hour, List.replicate 7 sample_day⟩, 0⟩

/-- The view model `prepare_template_data` builds from `sample_weather`
(with timestamps formatted to the empty string). -/
def sample_template : TemplateData :=
  ⟨"Philadelphia".toList, "PA".toList,
   ⟨"Now".toList, 50, 5⟩ :: List.replicate 7 ⟨[], 50, 5⟩,
   50, 50, List.replicate 7 sample_day⟩

/-! # Theorems -/

/-! ## Basic facts about `pyInt` -/

theorem pyInt_eq_floor {q : ℚ} (h : 0 ≤ q) : pyInt q = ⌊q⌋ := by
  rw [Rat.floor_def, pyInt, Int.tdiv_eq_ediv (Rat.num_nonneg.mpr h) (by positivity)]

theorem pyInt_eq_ceil {q : ℚ} (h : q ≤ 0) : pyInt q = ⌈q⌉ := by
  have hneg : pyInt q = -pyInt (-q) := by
    simp [pyInt, Int.neg_tdiv]
  rw [hneg, pyInt_eq_floor (by linarith), Int.floor_neg, neg_neg]

/-- `pyInt` agrees with Python's `int()`: floor above zero, ceiling below. -/
theorem pyInt_eq (q : ℚ) : pyInt q = if 0 ≤ q then ⌊q⌋ else ⌈q⌉ := by
  split
  · exact pyInt_eq_floor (by assumption)
  · exact pyInt_eq_ceil (by linarith [lt_of_not_le (by assumption : ¬ (0:ℚ) ≤ q)])

theorem pyInt_intCast (n : ℤ) : pyInt (n : ℚ) = n := by
  simp [pyInt]

theorem pyInt_mono {q r : ℚ} (h : q ≤ r) : pyInt q ≤ pyInt r := by
  rw [pyInt_eq, pyInt_eq]
  split <;> split
  · exact Int.floor_le_floor h
  · rename_i h1 h2
    exact absurd (le_trans h1 h) h2
  · rename_i h1 h2
    calc ⌈q⌉ ≤ ⌈(0 : ℚ)⌉ := Int.ceil_le_ceil (le_of_not_le h1)
    _ = 0 := by simp
    _ ≤ ⌊r⌋ := Int.le_floor.mpr (by exact_mod_cast h2)
  · exact Int.ceil_le_ceil h

/-! ## C5: icon resolution table -/

/-- C5: `get_weather_icon` satisfies the resolution table, with the wind
override (wind ≥ 20 → "windy") taking priority over the condition code
for every input, and with every code whose leading two digits are not in
{01,02,03,04,09,10,11,13,50} falling back to "cloudy" (at wind below the
override threshold); the function is total and never errors. -/
theorem c5_icon_resolution_table :
    get_weather_icon "01d".toList 0 = "clear_day".toList
  ∧ get_weather_icon "01d".toList 15 = "clear_windy".toList
  ∧ get_weather_icon "01n".toList 0 = "clear_night".toList
  ∧ (∀ c : List Char, get_weather_icon c 25 = "windy".toList)
  ∧ get_weather_icon "11d".toList 0 = "thunderstorm".toList
  ∧ (∀ (c : List Char) (w : ℚ), w < 20 →
      c.take 2 ∉ [['0', '1'], ['0', '2'], ['0', '3'], ['0', '4'], ['0', '9'],
                  ['1', '0'], ['1', '1'], ['1', '3'], ['5', '0']] →
      get_weather_icon c w = "cloudy".toList) := by
  refine ⟨by decide, by decide, by decide, ?_, by decide, ?_⟩
  · intro c
    unfold get_weather_icon
    rw [if_pos (by norm_num)]
  · intro c w hw hc
    simp only [List.mem_cons, not_or] at hc
    obtain ⟨h1, h2, h3, h4, h5, h6, h7, h8, h9, -⟩ := hc
    unfold get_weather_icon
    rw [if_neg (not_le.mpr hw)]
    rw [if_neg h1, if_neg h2, if_neg (by tauto), if_neg h5, if_neg h6, if_neg h7,
        if_neg h8, if_neg h9]

/-- Witness for C5 at concrete inputs. -/
theorem c5_icon_resolution_table_witness :
    (0 : ℚ) < 20
  ∧ get_weather_icon "99x".toList 0 = "cloudy".toList
  ∧ get_weather_icon "xyz".toList 25 = "windy".toList :=
  ⟨by norm_num,
   c5_icon_resolution_table.2.2.2.2.2 "99x".toList 0 (by norm_num) (by decide),
   c5_icon_resolution_table.2.2.2.1 "xyz".toList⟩

/-! ## C6: `force_day` night-to-day conversion -/

/-- C6: for every condition code ending in the night marker `'n'` and
every wind speed, `load_icon`'s name resolution with `force_day = true`
coincides with resolving the same code with its suffix replaced by `'d'`
and no forcing. -/
theorem c6_force_day_equals_day_code (c : List Char) (w : ℚ)
    (hcode : isConditionCode c = true) (hn : c.getLast? = some 'n') :
    load_icon_name c w true = load_icon_name (c.dropLast ++ ['d']) w false := by
  rcases c with - | ⟨a, c⟩
  · simp [isConditionCode] at hcode
  rcases c with - | ⟨b, c⟩
  · simp [isConditionCode] at hcode
  rcases c with - | ⟨s, c⟩
  · simp [isConditionCode] at hcode
  rcases c with - | ⟨x, c⟩
  · have hs : s = 'n' := by simpa using hn
    subst hs
    simp [load_icon_name, ui_icons]
  · simp [isConditionCode] at hcode

/-- Witness for C6 at the code `"02n"`. -/
theorem c6_force_day_equals_day_code_witness :
    isConditionCode "02n".toList = true
  ∧ ("02n".toList).getLast? = some 'n'
  ∧ load_icon_name "02n".toList 0 true
      = load_icon_name ("02n".toList.dropLast ++ ['d']) 0 false :=
  ⟨by decide, by decide,
   c6_force_day_equals_day_code "02n".toList 0 (by decide) (by decide)⟩

/-! ## C7: forecast cards fit horizontally -/

/-- C7: for 1 ≤ N ≤ 6 rendered cards, N card widths plus the (N-1)
3-pixel gaps plus the fixed 58-pixel side margins never exceed the
canvas width. -/
theorem c7_forecast_cards_fit (N W : ℤ) (h1 : 1 ≤ N) (h6 : N ≤ 6) :
    N * card_width W N + 3 * (N - 1) + 58 * 2 ≤ W := by
  have hN : (0 : ℤ) < N := by omega
  have key : (W - 58 * 2 - 3 * (N - 1)).fdiv N * N ≤ W - 58 * 2 - 3 * (N - 1) := by
    rw [Int.fdiv_eq_ediv _ (le_of_lt hN)]
    exact Int.ediv_mul_le _ (ne_of_gt hN)
  unfold card_width
  calc N * ((W - 58 * 2 - 3 * (N - 1)).fdiv N) + 3 * (N - 1) + 58 * 2
      = (W - 58 * 2 - 3 * (N - 1)).fdiv N * N + 3 * (N - 1) + 58 * 2 := by ring
    _ ≤ (W - 58 * 2 - 3 * (N - 1)) + 3 * (N - 1) + 58 * 2 := by linarith
    _ = W := by ring

/-- Witness for C7 at the canvas width 800 and the usual 6 cards. -/
theorem c7_forecast_cards_fit_witness :
    (1 : ℤ) ≤ 6 ∧ (6 : ℤ) ≤ 6
  ∧ 6 * card_width 800 6 + 3 * (6 - 1) + 58 * 2 ≤ 800 :=
  ⟨by norm_num, by norm_num, c7_forecast_cards_fit 6 800 (by norm_num) (by norm_num)⟩

/-! ## C2: missing weather data -/

/-- C2 (code bug): when the weather record for a cycle is missing, or
lacks the `current` entry, `update_display` does not throw — but it also
does not render any error/placeholder state: it returns before touching
the canvas or the display, so the previous output stays unchanged. -/
theorem c2_missing_data_renders_nothing (fmt_time : ℤ → List Char) :
    update_display fmt_time none = DisplayResult.noRender
  ∧ ∀ (fc : ForecastRec) (lu : ℤ),
      update_display fmt_time (some ⟨none, fc, lu⟩) = DisplayResult.noRender :=
  ⟨rfl, fun _ _ => rfl⟩

/-! ## C8: `make_icon_yellow` -/

/-- C8 counterexample: the recoloring does not preserve luminance.
A fully bright white pixel is mapped to the fixed yellow `(255, 220, 0)`,
whose brightness measure is 475/765, not the original 1. -/
theorem c8_luminance_not_preserved :
    make_icon_yellow_pixel ⟨255, 255, 255, 255⟩ = ⟨255, 220, 0, 255⟩
  ∧ luminance (make_icon_yellow_pixel ⟨255, 255, 255, 255⟩)
      ≠ luminance ⟨255, 255, 255, 255⟩ := by
  have h : make_icon_yellow_pixel ⟨255, 255, 255, 255⟩ = ⟨255, 220, 0, 255⟩ := by
    norm_num [make_icon_yellow_pixel, luminance, pyInt]
  refine ⟨h, ?_⟩
  rw [h]
  norm_num [luminance]

/-- C8 (amended): every pixel with positive alpha is mapped to the fixed
yellow `(255, 220, 0)` scaled by the pixel's original brightness with its
alpha value preserved (luminance itself is scaled by the yellow's
brightness, not preserved), and fully transparent pixels are left
completely untouched. -/
theorem c8_yellow_scaled_alpha_preserved (img : List Pixel) :
    make_icon_yellow img = img.map make_icon_yellow_pixel
  ∧ ∀ p ∈ img,
      (make_icon_yellow_pixel p).a = p.a
    ∧ (0 < p.a → make_icon_yellow_pixel p =
        ⟨pyInt (255 * luminance p), pyInt (220 * luminance p), 0, p.a⟩)
    ∧ (p.a = 0 → make_icon_yellow_pixel p = p) := by
  refine ⟨rfl, fun p _ => ⟨?_, ?_, ?_⟩⟩
  · unfold make_icon_yellow_pixel
    split <;> rfl
  · intro ha
    unfold make_icon_yellow_pixel
    rw [if_pos ha]
    have h0 : pyInt (0 * luminance p) = 0 := by
      rw [zero_mul]
      simpa using pyInt_intCast 0
    simp only [h0]
  · intro ha
    unfold make_icon_yellow_pixel
    rw [if_neg (by omega)]

/-- Witness for C8 at a concrete translucent pixel. -/
theorem c8_yellow_scaled_alpha_preserved_witness :
    (⟨10, 20, 30, 128⟩ : Pixel) ∈ [(⟨10, 20, 30, 128⟩ : Pixel)]
  ∧ (0 : ℤ) < 128
  ∧ make_icon_yellow_pixel ⟨10, 20, 30, 128⟩ = ⟨20, 17, 0, 128⟩ := by
  refine ⟨by simp, by norm_num, ?_⟩
  have h := ((c8_yellow_scaled_alpha_preserved [⟨10, 20, 30, 128⟩]).2
    ⟨10, 20, 30, 128⟩ (by simp)).2.1 (by norm_num)
  rw [h]
  norm_num [luminance, pyInt]
  decide

/-! ## C4: affine, monotone value-to-pixel mapping -/

/-- C4 counterexample: the truncated pixel mapping is not strictly
monotone. With `temp_min = 0`, `temp_max = 128` the distinct temperatures
2 and 3 land on the same pixel row (both float-exact computations). -/
theorem c4_not_strictly_monotone :
    (0 : ℚ) ≤ 2 ∧ (2 : ℚ) < 3 ∧ (3 : ℚ) ≤ 128 ∧ (0 : ℚ) < 128
  ∧ temp_point_y 245 0 128 3 = temp_point_y 245 0 128 2 := by
  refine ⟨by norm_num, by norm_num, by norm_num, by norm_num, ?_⟩
  norm_num [temp_point_y, temp_y_real, temp_range, graph_y, graph_height, pyInt]
  decide

/-- C4 (amended): the mapping is affine: the recorded minimum maps to the
bottom edge of the band and the maximum to its top edge, 0% and 100%
probability likewise; before `int()` truncation it is strictly decreasing
in the temperature, and after truncation it is weakly decreasing
(antitone); the example series 40 / 50 / 60 does map to strictly
decreasing pixel rows. -/
theorem c4_affine_monotone_mapping (y_start : ℤ) (tmin tmax : ℚ)
    (h : tmin < tmax) :
    temp_point_y y_start tmin tmax tmin = graph_y y_start + graph_height
  ∧ temp_point_y y_start tmin tmax tmax = graph_y y_start
  ∧ (∀ t1 t2 : ℚ, tmin ≤ t1 → t1 < t2 → t2 ≤ tmax →
      temp_point_y y_start tmin tmax t2 ≤ temp_point_y y_start tmin tmax t1
      ∧ temp_y_real y_start tmin tmax t2 < temp_y_real y_start tmin tmax t1)
  ∧ rain_point_y y_start 0 = graph_y y_start + graph_height
  ∧ rain_point_y y_start 100 = graph_y y_start
  ∧ temp_point_y 245 40 60 60 < temp_point_y 245 40 60 50
  ∧ temp_point_y 245 40 60 50 < temp_point_y 245 40 60 40 := by
  have hrange : temp_range tmin tmax = tmax - tmin := by
    unfold temp_range
    rw [if_pos (ne_of_gt h)]
  have hd : (0 : ℚ) < tmax - tmin := sub_pos.mpr h
  refine ⟨?_, ?_, ?_, ?_, ?_, ?_, ?_⟩
  · unfold temp_point_y temp_y_real
    have heq : (graph_y y_start : ℚ) + (graph_height : ℚ)
        - ((tmin - tmin) / temp_range tmin tmax) * (graph_height : ℚ)
        = ((graph_y y_start + graph_height : ℤ) : ℚ) := by push_cast; ring
    rw [heq, pyInt_intCast]
  · unfold temp_point_y temp_y_real
    rw [hrange, div_self (ne_of_gt hd)]
    have heq : (graph_y y_start : ℚ) + (graph_height : ℚ)
        - 1 * (graph_height : ℚ) = ((graph_y y_start : ℤ) : ℚ) := by ring
    rw [heq, pyInt_intCast]
  · intro t1 t2 ht1 h12 ht2
    have hgh : (0 : ℚ) < ((graph_height : ℤ) : ℚ) := by norm_num [graph_height]
    have hstep : (t1 - tmin) / (tmax - tmin) < (t2 - tmin) / (tmax - tmin) := by
      gcongr
    have hreal : temp_y_real y_start tmin tmax t2 < temp_y_real y_start tmin tmax t1 := by
      unfold temp_y_real
      rw [hrange]
      have := mul_lt_mul_of_pos_right hstep hgh
      linarith
    exact ⟨pyInt_mono (le_of_lt hreal), hreal⟩
  · unfold rain_point_y
    have heq : (graph_y y_start : ℚ) + (graph_height : ℚ)
        - ((0 : ℚ) / 100) * (graph_height : ℚ)
        = ((graph_y y_start + graph_height : ℤ) : ℚ) := by push_cast; ring
    rw [heq, pyInt_intCast]
  · unfold rain_point_y
    have heq : (graph_y y_start : ℚ) + (graph_height : ℚ)
        - ((100 : ℚ) / 100) * (graph_height : ℚ)
        = ((graph_y y_start : ℤ) : ℚ) := by ring
    rw [heq, pyInt_intCast]
  · norm_num [temp_point_y, temp_y_real, temp_range, graph_y, graph_height, pyInt]
  · norm_num [temp_point_y, temp_y_real, temp_range, graph_y, graph_height, pyInt]

/-- Witness for C4 at `temp_min = 40`, `temp_max = 60`, `y_start = 245`. -/
theorem c4_affine_monotone_mapping_witness :
    (40 : ℚ) < 60 ∧ (40 : ℚ) ≤ 45 ∧ (45 : ℚ) < 55 ∧ (55 : ℚ) ≤ 60
  ∧ temp_point_y 245 40 60 40 = graph_y 245 + graph_height
  ∧ temp_point_y 245 40 60 55 ≤ temp_point_y 245 40 60 45 := by
  have h := c4_affine_monotone_mapping 245 40 60 (by norm_num)
  exact ⟨by norm_num, by norm_num, by norm_num, by norm_num, h.1,
    (h.2.2.1 45 55 (by norm_num) (by norm_num) (by norm_num)).1⟩

/-! ## C1: all-equal temperature series -/

/-- C1 counterexample: with an all-equal series the guarded range is 1
and the curve collapses to pixel row 337 = `graph_y + graph_height`
(the band bottom), not the vertical midpoint
`graph_y + graph_height / 2` = 297. -/
theorem c1_flat_series_not_midpoint :
    (draw_graph_temp_points 245
        [⟨"Now".toList, 50, 0⟩, ⟨"1pm".toList, 50, 0⟩] 50 50).map Prod.snd
      = [337, 337]
  ∧ (337 : ℤ) ≠ graph_y 245 + graph_height / 2 := by
  constructor
  · norm_num [draw_graph_temp_points, temp_points, temp_point_y, temp_y_real,
      temp_range, graph_y, graph_height, graph_x, graph_step, graph_width,
      pyInt, List.enum]
  · norm_num [graph_y, graph_height]

/-- C1 (amended): for every hourly series of at least 2 points whose
temperatures are all equal, `draw_graph_section`'s point computation
completes without dividing by zero (the guarded range is 1) and maps
every temperature sample to the bottom edge of the chart band,
`graph_y + graph_height`. -/
theorem c1_flat_series_bottom_edge (y_start : ℤ) (hourly : List HourPoint)
    (t : ℚ) (h2 : 2 ≤ hourly.length) (hall : ∀ hp ∈ hourly, hp.temp = t) :
    temp_range t t = 1
  ∧ ∀ p ∈ draw_graph_temp_points y_start hourly t t,
      p.2 = graph_y y_start + graph_height := by
  have hrange : temp_range t t = 1 := by unfold temp_range; simp
  refine ⟨hrange, ?_⟩
  intro p hp
  unfold draw_graph_temp_points at hp
  rw [if_neg (by omega)] at hp
  unfold temp_points at hp
  obtain ⟨⟨i, tp⟩, hmem, rfl⟩ := List.mem_map.mp hp
  obtain ⟨hi, htp⟩ := List.mem_enum hmem
  have htp_t : tp = t := by
    rw [htp, List.getElem_map]
    exact hall _ (hourly.getElem_mem _)
  show temp_point_y y_start t t tp = graph_y y_start + graph_height
  rw [htp_t]
  unfold temp_point_y temp_y_real
  rw [hrange]
  have heq : (graph_y y_start : ℚ) + (graph_height : ℚ)
      - ((t - t) / 1) * (graph_height : ℚ)
      = ((graph_y y_start + graph_height : ℤ) : ℚ) := by push_cast; ring
  rw [heq, pyInt_intCast]

/-- Witness for C1 at a concrete flat 2-point series. -/
theorem c1_flat_series_bottom_edge_witness :
    2 ≤ ([⟨"Now".toList, 50, 0⟩, ⟨"1pm".toList, 50, 0⟩] : List HourPoint).length
  ∧ ((85 : ℤ), (337 : ℤ)).2 = graph_y 245 + graph_height := by
  refine ⟨by norm_num, ?_⟩
  refine (c1_flat_series_bottom_edge 245
      [⟨"Now".toList, 50, 0⟩, ⟨"1pm".toList, 50, 0⟩] 50
      (by norm_num) (by intro hp h; fin_cases h <;> rfl)).2 (85, 337) ?_
  norm_num [draw_graph_temp_points, temp_points, temp_point_y, temp_y_real,
    temp_range, graph_y, graph_height, graph_x, graph_step, graph_width,
    pyInt, List.enum]

/-! ## C3: `bezier_curve` endpoint and length contract -/

theorem catmullCoord_zero (a0 a1 a2 a3 : ℤ) : catmullCoord a0 a1 a2 a3 0 = (a1 : ℚ) := by
  unfold catmullCoord
  ring

theorem catmullPoint_zero (p0 p1 p2 p3 : ℤ × ℤ) : catmullPoint p0 p1 p2 p3 0 = p1 := by
  unfold catmullPoint
  rw [catmullCoord_zero, catmullCoord_zero, pyInt_intCast, pyInt_intCast]

theorem bezierSegment_length (points : List (ℤ × ℤ)) (s i : ℕ) :
    (bezierSegment points s i).length = s := by
  unfold bezierSegment
  simp

theorem bezierSegment_ne_nil (points : List (ℤ × ℤ)) {s : ℕ} (hs : 1 ≤ s) (i : ℕ) :
    bezierSegment points s i ≠ [] := by
  intro h
  have hlen := bezierSegment_length points s i
  rw [h] at hlen
  simp at hlen
  omega

theorem bezierSegment_head (points : List (ℤ × ℤ)) {s : ℕ} (hs : 1 ≤ s) (i : ℕ) :
    (bezierSegment points s i).head? = some (points.getD i (0, 0)) := by
  obtain ⟨m, rfl⟩ : ∃ m, s = m + 1 := ⟨s - 1, by omega⟩
  simp only [bezierSegment]
  rw [List.range_succ_eq_map, List.map_cons, List.head?_cons]
  norm_num [catmullPoint_zero]

theorem bezier_flatten_length (points : List (ℤ × ℤ)) (s k : ℕ) :
    (((List.range k).map (bezierSegment points s)).flatten).length = k * s := by
  induction k with
  | zero => simp
  | succ n ih =>
    rw [List.range_succ, List.map_append, List.flatten_append, List.length_append, ih]
    simp [bezierSegment_length, Nat.succ_mul]

theorem bezier_flatten_head (points : List (ℤ × ℤ)) {s : ℕ} (hs : 1 ≤ s)
    {k : ℕ} (hk : 1 ≤ k) :
    (((List.range k).map (bezierSegment points s)).flatten).head?
      = some (points.getD 0 (0, 0)) := by
  obtain ⟨m, rfl⟩ : ∃ m, k = m + 1 := ⟨k - 1, by omega⟩
  rw [List.range_succ_eq_map, List.map_cons, List.flatten_cons,
    List.head?_append_of_ne_nil _ (bezierSegment_ne_nil points hs 0)]
  exact bezierSegment_head points hs 0

/-- C3: for every input of at least 2 points and positive segment count,
the smoothed curve starts at the first input point, ends exactly on the
last input point (the explicit append), and has length
`(n - 1) * num_segments + 1`; every input with fewer than 2 points is
returned unchanged. -/
theorem c3_bezier_contract (points : List (ℤ × ℤ)) (s : ℕ) :
    (2 ≤ points.length → 1 ≤ s →
      (bezier_curve points s).head? = points.head?
      ∧ (bezier_curve points s).getLast? = points.getLast?
      ∧ (bezier_curve points s).length = (points.length - 1) * s + 1)
  ∧ (points.length < 2 → bezier_curve points s = points) := by
  constructor
  · intro h2 hs
    unfold bezier_curve
    rw [if_neg (by omega)]
    have hflen := bezier_flatten_length points s (points.length - 1)
    refine ⟨?_, ?_, ?_⟩
    · have hne : ((List.range (points.length - 1)).map (bezierSegment points s)).flatten
          ≠ [] := by
        intro hnil
        rw [hnil] at hflen
        simp at hflen
        rcases hflen with h0 | h0 <;> omega
      rw [List.head?_append_of_ne_nil _ hne,
        bezier_flatten_head points hs (k := points.length - 1) (by omega)]
      cases points with
      | nil => simp at h2
      | cons a l => simp
    · rw [List.getLast?_concat]
      cases hp : points.getLast? with
      | none =>
        rw [List.getLast?_eq_none_iff] at hp
        subst hp
        simp at h2
      | some a => simp [List.getLastD_eq_getLast?, hp]
    · rw [List.length_append, hflen]
      simp
  · intro h
    unfold bezier_curve
    rw [if_pos h]

/-- Witness for C3 at a concrete 3-point polyline with 2 segments. -/
theorem c3_bezier_contract_witness :
    2 ≤ ([((0 : ℤ), (0 : ℤ)), (10, 5), (20, 0)] : List (ℤ × ℤ)).length
  ∧ (1 : ℕ) ≤ 2
  ∧ (bezier_curve [((0 : ℤ), (0 : ℤ)), (10, 5), (20, 0)] 2).head? = some (0, 0)
  ∧ (bezier_curve [((0 : ℤ), (0 : ℤ)), (10, 5), (20, 0)] 2).getLast? = some (20, 0)
  ∧ (bezier_curve [((0 : ℤ), (0 : ℤ)), (10, 5), (20, 0)] 2).length = 5 := by
  have h := (c3_bezier_contract [((0 : ℤ), (0 : ℤ)), (10, 5), (20, 0)] 2).1
    (by norm_num) (by norm_num)
  refine ⟨by norm_num, by norm_num, ?_, ?_, ?_⟩
  · rw [h.1]; rfl
  · rw [h.2.1]; rfl
  · rw [h.2.2]; rfl

/-! ## C9: forecast and hourly sequences are clipped -/

theorem draw_forecast_cards_card_bound (l : List DayRec) :
    (draw_forecast_cards l).length ≤ 6 := by
  unfold draw_forecast_cards
  split
  · simp
  · dsimp only
    split
    · simp
    · simp [List.length_take]

/-- C9: for every input weather record from which a view model is
prepared, the daily-forecast sequence actually rendered as cards is at
most 6 entries long and the hourly sequence handed to the chart is at
most 8 entries long, whatever the lengths of the raw inputs. -/
theorem c9_sequences_clipped (fmt_time : ℤ → List Char)
    (wd : Option WeatherRecord) (td : TemplateData)
    (h : prepare_template_data fmt_time wd = some td) :
    (draw_forecast_cards td.forecast).length ≤ 6
  ∧ td.hourly_data.length ≤ 8 := by
  refine ⟨draw_forecast_cards_card_bound _, ?_⟩
  cases wd with
  | none => simp [prepare_template_data] at h
  | some w =>
    cases hc : w.current with
    | none => simp [prepare_template_data, hc] at h
    | some current =>
      simp only [prepare_template_data, hc, Option.some.injEq] at h
      subst h
      simp [List.length_take]

/-- Witness for C9 at a record carrying 11 hourly points and 7 daily
entries (the shape of `test_display`'s sample data). -/
theorem c9_sequences_clipped_witness :
    prepare_template_data (fun _ => []) (some sample_weather) = some sample_template
  ∧ (draw_forecast_cards sample_template.forecast).length ≤ 6
  ∧ sample_template.hourly_data.length ≤ 8 := by
  have hprep : prepare_template_data (fun _ => []) (some sample_weather)
      = some sample_template := by decide
  have h := c9_sequences_clipped (fun _ => []) (some sample_weather) sample_template hprep
  exact ⟨hprep, h.1, h.2⟩

/-! ## C10: `draw_forecast` does not mutate its input -/

theorem draw_forecast_loop_frame (addrs : List ℕ) :
    ∀ (store : List DayRec) (cnt i : ℕ), i < store.length →
      (draw_forecast_loop store addrs cnt).1[i]? = store[i]? := by
  induction addrs with
  | nil =>
    intro store cnt i hi
    rfl
  | cons a rest ih =>
    intro store cnt i hi
    dsimp only [draw_forecast_loop]
    rw [ih (store ++ [if cnt = 0
        then { store.getD a default with day_name := "Today".toList }
        else store.getD a default]) (cnt + 1) i
      (by simp only [List.length_append, List.length_cons, List.length_nil]; omega)]
    exact List.getElem?_append_left hi

/-- C10: `draw_forecast` never mutates its input — in the heap model, the
"Today" override is applied to a freshly allocated copy of the zeroth
forecast dict, so after the call every cell of the original store
(including the zeroth entry's `day_name`) is unchanged. -/
theorem c10_draw_forecast_no_mutation (store : List DayRec)
    (forecast_addrs : List ℕ) (i : ℕ) (hi : i < store.length) :
    (draw_forecast_heap store forecast_addrs).1[i]? = store[i]? := by
  unfold draw_forecast_heap
  split
  · rfl
  · exact draw_forecast_loop_frame _ store 0 i hi

/-- Witness for C10 at a one-card forecast. -/
theorem c10_draw_forecast_no_mutation_witness :
    0 < [sample_day].length
  ∧ (draw_forecast_heap [sample_day] [0]).1[0]? = [sample_day][0]? :=
  ⟨by norm_num, c10_draw_forecast_no_mutation [sample_day] [0] 0 (by norm_num)⟩

end WeatherDash
